import Mathlib

/-!
Verification development for a GraphQL-over-HTTP service.

The service declares a schema (entity object types, a query root with
collection and by-id fields, a mutation root with create/change/delete and
subscription-toggling fields), validates incoming documents (a structural
pass plus a depth-limit rule with a fixed bound of 5) and executes them by
dispatching field resolvers against a relational store.

Definitions below are a shallow embedding: the schema declaration, field
resolvers and the two HTTP handler variants are translated from the
TypeScript sources; the execution engine, the depth rule and the structural
validator are the external graphql library, modelled from the specification
(each such definition is marked `Modelled from the spec:`). The data store
is modelled as an immutable value passed to every resolver.
-/

/-- Runtime values flowing through the engine: JSON-like GraphQL values. -/
inductive GValue where
  | null
  | s (v : String)
  | i (v : Int)
  | b (v : Bool)
  | list (items : List GValue)
  | obj (props : List (String × GValue))
deriving Repr

/-- Segment of an error path: a field name or a list index. -/
inductive PathSeg where
  | fld (name : String)
  | idx (n : Nat)
deriving Repr, DecidableEq

/-- Error entry: message plus the path of the field it belongs to
(validation errors carry an empty path). -/
structure FieldError where
  message : String
  path : List PathSeg
deriving Repr, DecidableEq

/-- Declared GraphQL types, referencing object types by name (the source
schema resolves cyclic references by name as well). -/
inductive GType where
  | scalar (name : String)
  | enum (name : String)
  | object (name : String)
  | inputObject (name : String)
  | listOf (t : GType)
  | nonNull (t : GType)
deriving Repr, DecidableEq

/-- Whether the outermost wrapper of a type is non-null. -/
def isNonNull : GType → Bool
  | .nonNull _ => true
  | _ => false

/-- Strip list and non-null wrappers down to the named type. -/
def stripWrappers : GType → GType
  | .nonNull t => stripWrappers t
  | .listOf t => stripWrappers t
  | t => t

/-- Parsed selection node: field name, literal arguments, subselections. -/
inductive Selection where
  | field (name : String) (args : List (String × GValue)) (sub : List Selection)
deriving Repr

/-- Name of a selection's field. -/
def Selection.name : Selection → String
  | .field n _ _ => n

/-- Arguments of a selection. -/
def Selection.args : Selection → List (String × GValue)
  | .field _ a _ => a

/-- Subselections of a selection. -/
def Selection.sub : Selection → List Selection
  | .field _ _ s => s

mutual
/-- Size of a selection node (used for fuel bounds). -/
def selSize : Selection → Nat
  | .field _ _ sub => 1 + selsSize sub
/-- Size of a selection list; at least 1. -/
def selsSize : List Selection → Nat
  | [] => 1
  | s :: rest => selSize s + selsSize rest
end

mutual
/-- Nesting depth of a selection node: a leaf field has depth 1. -/
def selDepth : Selection → Nat
  | .field _ _ sub => 1 + selsDepth sub
/-- Maximum nesting depth over a selection list. -/
def selsDepth : List Selection → Nat
  | [] => 0
  | s :: rest => max (selDepth s) (selsDepth rest)
end

/-- Operation kind of a parsed document. -/
inductive OpType where
  | query
  | mutation
deriving Repr, DecidableEq

/-- Parsed query document: operation kind plus root selection set. -/
structure Doc where
  op : OpType
  sels : List Selection
deriving Repr

/-- Incoming request body after parsing: the parsed query document and the
variables object (field `vars` embeds `req.body.variables`). -/
structure Request where
  query : Doc
  vars : List (String × GValue)

/-- Response body: `data` is absent (`none`) when validation fails, and is
`some .null` when a non-null failure propagated to the root. -/
structure Response where
  data : Option GValue
  errors : List FieldError

/-- Row of the memberType table. -/
structure MemberTypeRec where
  id : String
  discount : Int
  postsLimitPerMonth : Int
deriving Repr, DecidableEq

/-- Row of the post table. -/
structure PostRec where
  id : String
  title : String
  content : String
  authorId : String
deriving Repr, DecidableEq

/-- Row of the profile table. -/
structure ProfileRec where
  id : String
  isMale : Bool
  yearOfBirth : Int
  memberTypeId : String
  userId : String
deriving Repr, DecidableEq

/-- Row of the user table. -/
structure UserRec where
  id : String
  name : String
  balance : Int
deriving Repr, DecidableEq

/-- Row of the subscribersOnAuthors join table. -/
structure SubRec where
  subscriberId : String
  authorId : String
deriving Repr, DecidableEq

/-- Immutable snapshot of the relational store consulted by resolvers. -/
structure Store where
  memberTypes : List MemberTypeRec
  users : List UserRec
  posts : List PostRec
  profiles : List ProfileRec
  subscribersOnAuthors : List SubRec
deriving Repr, DecidableEq

/-- Repository lookup `prisma.memberType.findFirst({ where: { id } })`. -/
def memberTypeFindFirst (store : Store) (id : String) : Option MemberTypeRec :=
  store.memberTypes.find? (fun m => m.id == id)

/-- Repository lookup `prisma.user.findFirst({ where: { id } })`. -/
def userFindFirst (store : Store) (id : String) : Option UserRec :=
  store.users.find? (fun u => u.id == id)

/-- Repository lookup `prisma.post.findFirst({ where: { id } })`. -/
def postFindFirst (store : Store) (id : String) : Option PostRec :=
  store.posts.find? (fun p => p.id == id)

/-- Repository lookup `prisma.profile.findFirst({ where: { id } })`. -/
def profileFindFirst (store : Store) (id : String) : Option ProfileRec :=
  store.profiles.find? (fun p => p.id == id)

/-- Repository lookup `prisma.profile.findFirst({ where: { userId } })`. -/
def profileFindByUser (store : Store) (userId : String) : Option ProfileRec :=
  store.profiles.find? (fun p => p.userId == userId)

/-- Repository lookup `prisma.post.findMany({ where: { authorId } })`. -/
def postsByAuthor (store : Store) (authorId : String) : List PostRec :=
  store.posts.filter (fun p => p.authorId == authorId)

/-- Repository lookup `prisma.subscribersOnAuthors.findMany({ where: { subscriberId } })`. -/
def subsBySubscriber (store : Store) (subscriberId : String) : List SubRec :=
  store.subscribersOnAuthors.filter (fun e => e.subscriberId == subscriberId)

/-- Repository lookup `prisma.subscribersOnAuthors.findMany({ where: { authorId } })`. -/
def subsByAuthor (store : Store) (authorId : String) : List SubRec :=
  store.subscribersOnAuthors.filter (fun e => e.authorId == authorId)

/-- GraphQL object value for a memberType row. -/
def memberTypeToG (m : MemberTypeRec) : GValue :=
  .obj [("id", .s m.id), ("discount", .i m.discount),
        ("postsLimitPerMonth", .i m.postsLimitPerMonth)]

/-- GraphQL object value for a post row (includes the authorId column, as
prisma returns full rows). -/
def postToG (p : PostRec) : GValue :=
  .obj [("id", .s p.id), ("title", .s p.title), ("content", .s p.content),
        ("authorId", .s p.authorId)]

/-- GraphQL object value for a profile row (includes memberTypeId and
userId columns read by child resolvers). -/
def profileToG (p : ProfileRec) : GValue :=
  .obj [("id", .s p.id), ("isMale", .b p.isMale), ("yearOfBirth", .i p.yearOfBirth),
        ("memberTypeId", .s p.memberTypeId), ("userId", .s p.userId)]

/-- GraphQL object value for a user row. -/
def userToG (u : UserRec) : GValue :=
  .obj [("id", .s u.id), ("name", .s u.name), ("balance", .i u.balance)]

/-- Read a property off an object value. -/
def getProp (v : GValue) (key : String) : Option GValue :=
  match v with
  | .obj props => props.lookup key
  | _ => none

/-- Read a string property off an object value, defaulting to the empty
string (source code accesses e.g. `user.id` directly). -/
def getStrD (v : GValue) (key : String) : String :=
  match getProp v key with
  | some (.s str) => str
  | _ => ""

/-- Resolver signature: parent value, supplied arguments, store snapshot;
either a value or a thrown error message. -/
abbrev Resolver := GValue → List (String × GValue) → Store → Except String GValue

/-- Field declaration: declared result type, declared arguments with their
types, and an optional explicit resolver. -/
structure FieldDef where
  name : String
  ty : GType
  args : List (String × GType)
  resolve : Option Resolver

/-- Object type declaration: name plus ordered field list. -/
structure ObjDef where
  name : String
  fields : List FieldDef

/-- Default resolver: read the property named like the field off the parent
value; absent properties yield null. -/
def defaultResolve (fieldName : String) (parent : GValue) : GValue :=
  (getProp parent fieldName).getD .null

/-- Run a field's resolver: the explicit one when bound, otherwise the
default property read (which never throws). -/
def runResolver (fd : FieldDef) (parent : GValue) (args : List (String × GValue))
    (store : Store) : Except String GValue :=
  match fd.resolve with
  | some r => r parent args store
  | none => .ok (defaultResolve fd.name parent)

/-- Ordered list produced by the `userSubscribedTo` resolver: for each
subscription edge of the user, the author looked up by the edge's authorId,
null when that user does not exist. -/
def userSubscribedToList (store : Store) (userId : String) : List GValue :=
  (subsBySubscriber store userId).map
    (fun e => ((userFindFirst store e.authorId).map userToG).getD .null)

/-- Ordered list produced by the `subscribedToUser` resolver: for each
subscription edge onto the user, the subscriber looked up by the edge's
subscriberId, null when that user does not exist. -/
def subscribedToUserList (store : Store) (authorId : String) : List GValue :=
  (subsByAuthor store authorId).map
    (fun e => ((userFindFirst store e.subscriberId).map userToG).getD .null)

/-- Resolver of `User.userSubscribedTo`: findMany on the join table by
subscriberId, then a findFirst per edge, preserving edge order. -/
def userSubscribedToResolve : Resolver := fun parent _ store =>
  .ok (.list (userSubscribedToList store (getStrD parent "id")))

/-- Resolver of `User.subscribedToUser`: findMany on the join table by
authorId, then a findFirst per edge, preserving edge order. -/
def subscribedToUserResolve : Resolver := fun parent _ store =>
  .ok (.list (subscribedToUserList store (getStrD parent "id")))

/-- Object type `MemberType`. -/
def MemberTypeObj : ObjDef :=
  { name := "MemberType"
    fields :=
      [ { name := "id", ty := .nonNull (.enum "MemberTypeId"), args := [], resolve := none }
      , { name := "discount", ty := .nonNull (.scalar "Float"), args := [], resolve := none }
      , { name := "postsLimitPerMonth", ty := .nonNull (.scalar "Int"), args := [], resolve := none } ] }

/-- Object type `Post`. -/
def PostObj : ObjDef :=
  { name := "Post"
    fields :=
      [ { name := "id", ty := .nonNull (.scalar "UUID"), args := [], resolve := none }
      , { name := "title", ty := .nonNull (.scalar "String"), args := [], resolve := none }
      , { name := "content", ty := .nonNull (.scalar "String"), args := [], resolve := none } ] }

/-- Object type `Profile`, whose `memberType` field loads the related
memberType row by the profile's memberTypeId. -/
def ProfileObj : ObjDef :=
  { name := "Profile"
    fields :=
      [ { name := "id", ty := .nonNull (.scalar "UUID"), args := [], resolve := none }
      , { name := "isMale", ty := .nonNull (.scalar "Boolean"), args := [], resolve := none }
      , { name := "yearOfBirth", ty := .nonNull (.scalar "Int"), args := [], resolve := none }
      , { name := "memberType", ty := .nonNull (.object "MemberType"), args := []
        , resolve := some (fun parent _ store =>
            .ok (((memberTypeFindFirst store (getStrD parent "memberTypeId")).map
                    memberTypeToG).getD .null)) } ] }

/-- Object type `User`, with relation fields loading the profile by userId,
the posts by authorId, and the two subscription lists. -/
def UserObj : ObjDef :=
  { name := "User"
    fields :=
      [ { name := "id", ty := .nonNull (.scalar "UUID"), args := [], resolve := none }
      , { name := "name", ty := .nonNull (.scalar "String"), args := [], resolve := none }
      , { name := "balance", ty := .nonNull (.scalar "Float"), args := [], resolve := none }
      , { name := "profile", ty := .object "Profile", args := []
        , resolve := some (fun parent _ store =>
            .ok (((profileFindByUser store (getStrD parent "id")).map profileToG).getD .null)) }
      , { name := "posts", ty := .nonNull (.listOf (.nonNull (.object "Post"))), args := []
        , resolve := some (fun parent _ store =>
            .ok (.list ((postsByAuthor store (getStrD parent "id")).map postToG))) }
      , { name := "userSubscribedTo", ty := .nonNull (.listOf (.nonNull (.object "User")))
        , args := [], resolve := some userSubscribedToResolve }
      , { name := "subscribedToUser", ty := .nonNull (.listOf (.nonNull (.object "User")))
        , args := [], resolve := some subscribedToUserResolve } ] }

/-- Message wrapper of the catch block in the query `memberType` resolver. -/
def fetchMemberTypeErrorMessage (m : String) : String :=
  "Error fetching memberType: " ++ m

/-- Message wrapper of the catch block in the query `user` resolver. -/
def fetchUserErrorMessage (m : String) : String :=
  "Error fetching user: " ++ m

/-- Message wrapper of the catch block in the query `post` resolver. -/
def fetchPostErrorMessage (m : String) : String :=
  "Error fetching post: " ++ m

/-- Message wrapper of the catch block in the query `profile` resolver. -/
def fetchProfileErrorMessage (m : String) : String :=
  "Error fetching profile: " ++ m

/-- Object type `RootQueryType`: collection and single-entity-by-id fields
for memberType, user, post and profile; the by-id fields are nullable. -/
def RootQueryTypeObj : ObjDef :=
  { name := "RootQueryType"
    fields :=
      [ { name := "memberTypes", ty := .nonNull (.listOf (.nonNull (.object "MemberType")))
        , args := []
        , resolve := some (fun _ _ store => .ok (.list (store.memberTypes.map memberTypeToG))) }
      , { name := "memberType", ty := .object "MemberType"
        , args := [("id", .nonNull (.enum "MemberTypeId"))]
        , resolve := some (fun _ args store =>
            match args.lookup "id" with
            | some (.s id) => .ok (((memberTypeFindFirst store id).map memberTypeToG).getD .null)
            | _ => .ok .null) }
      , { name := "users", ty := .nonNull (.listOf (.nonNull (.object "User")))
        , args := []
        , resolve := some (fun _ _ store => .ok (.list (store.users.map userToG))) }
      , { name := "user", ty := .object "User"
        , args := [("id", .nonNull (.scalar "UUID"))]
        , resolve := some (fun _ args store =>
            match args.lookup "id" with
            | some (.s id) => .ok (((userFindFirst store id).map userToG).getD .null)
            | _ => .ok .null) }
      , { name := "posts", ty := .nonNull (.listOf (.nonNull (.object "Post")))
        , args := []
        , resolve := some (fun _ _ store => .ok (.list (store.posts.map postToG))) }
      , { name := "post", ty := .object "Post"
        , args := [("id", .nonNull (.scalar "UUID"))]
        , resolve := some (fun _ args store =>
            match args.lookup "id" with
            | some (.s id) => .ok (((postFindFirst store id).map postToG).getD .null)
            | _ => .ok .null) }
      , { name := "profiles", ty := .nonNull (.listOf (.nonNull (.object "Profile")))
        , args := []
        , resolve := some (fun _ _ store => .ok (.list (store.profiles.map profileToG))) }
      , { name := "profile", ty := .object "Profile"
        , args := [("id", .nonNull (.scalar "UUID"))]
        , resolve := some (fun _ args store =>
            match args.lookup "id" with
            | some (.s id) => .ok (((profileFindFirst store id).map profileToG).getD .null)
            | _ => .ok .null) } ] }

/-- Message wrapper of the catch block in the `createUser` mutation. -/
def createUserErrorMessage (m : String) : String :=
  "Failed to create user: " ++ m

/-- Message wrapper of the catch block in the `createProfile` mutation. -/
def createProfileErrorMessage (m : String) : String :=
  "Failed to create profile: " ++ m

/-- Message wrapper of the catch block in the `createPost` mutation. -/
def createPostErrorMessage (m : String) : String :=
  "Failed to create post: " ++ m

/-- Message wrapper of the catch block in the `changePost` mutation. -/
def changePostErrorMessage (m : String) : String :=
  "Failed to update post: " ++ m

/-- Message wrapper of the catch block in the `changeProfile` mutation. -/
def changeProfileErrorMessage (m : String) : String :=
  "Failed to update profile: " ++ m

/-- Message wrapper of the catch block in the `changeUser` mutation. -/
def changeUserErrorMessage (m : String) : String :=
  "Failed to update user: " ++ m

/-- Message wrapper of the catch block in the `deleteUser` mutation. -/
def deleteUserErrorMessage (m : String) : String :=
  "Failed to delete user: " ++ m

/-- Message wrapper of the catch block in the `deletePost` mutation. -/
def deletePostErrorMessage (m : String) : String :=
  "Failed to delete post: " ++ m

/-- Message wrapper of the catch block in the `deleteProfile` mutation. -/
def deleteProfileErrorMessage (m : String) : String :=
  "Failed to delete profile: " ++ m

/-- Message wrapper of the catch block in the `subscribeTo` mutation. -/
def subscribeToErrorMessage (m : String) : String :=
  "Failed to subscribe: " ++ m

/-- Message wrapper of the catch block in the `unsubscribeFrom` mutation. -/
def unsubscribeFromErrorMessage (m : String) : String :=
  "Failed to unsubscribe: " ++ m

/-- Error message prisma raises when a create call receives no data
argument (the dto argument was omitted or null). -/
def prismaMissingDataMessage : String :=
  "Argument data is missing"

/-- Error message prisma raises when update or delete targets a record
that does not exist. -/
def prismaRecordNotFoundMessage : String :=
  "Record to update or delete does not exist"

/-- Merge the dto properties over an existing object value's properties,
as an update call does. -/
def setProps (base : List (String × GValue)) (dto : List (String × GValue)) :
    List (String × GValue) :=
  base.map (fun kv => (kv.1, (dto.lookup kv.1).getD kv.2))

/-- Repository call `prisma.user.create({ data: dto })`: fails when dto is
absent or not an object, otherwise returns the new row with a generated id. -/
def userCreate (dto : Option GValue) : Except String GValue :=
  match dto with
  | some (.obj props) => .ok (.obj (("id", .s "generated-user-id") :: props))
  | _ => .error prismaMissingDataMessage

/-- Repository call `prisma.profile.create({ data: dto })`. -/
def profileCreate (dto : Option GValue) : Except String GValue :=
  match dto with
  | some (.obj props) => .ok (.obj (("id", .s "generated-profile-id") :: props))
  | _ => .error prismaMissingDataMessage

/-- Repository call `prisma.post.create({ data: dto })`. -/
def postCreate (dto : Option GValue) : Except String GValue :=
  match dto with
  | some (.obj props) => .ok (.obj (("id", .s "generated-post-id") :: props))
  | _ => .error prismaMissingDataMessage

/-- Repository call `prisma.user.update({ where: { id }, data: dto })`:
fails when no user with the id exists. -/
def userUpdate (store : Store) (id : String) (dto : Option GValue) : Except String GValue :=
  match userFindFirst store id, dto with
  | some u, some (.obj props) =>
      match userToG u with
      | .obj base => .ok (.obj (setProps base props))
      | v => .ok v
  | some _, _ => .error prismaMissingDataMessage
  | none, _ => .error prismaRecordNotFoundMessage

/-- Repository call `prisma.profile.update({ where: { id }, data: dto })`. -/
def profileUpdate (store : Store) (id : String) (dto : Option GValue) : Except String GValue :=
  match profileFindFirst store id, dto with
  | some p, some (.obj props) =>
      match profileToG p with
      | .obj base => .ok (.obj (setProps base props))
      | v => .ok v
  | some _, _ => .error prismaMissingDataMessage
  | none, _ => .error prismaRecordNotFoundMessage

/-- Repository call `prisma.post.update({ where: { id }, data: dto })`. -/
def postUpdate (store : Store) (id : String) (dto : Option GValue) : Except String GValue :=
  match postFindFirst store id, dto with
  | some p, some (.obj props) =>
      match postToG p with
      | .obj base => .ok (.obj (setProps base props))
      | v => .ok v
  | some _, _ => .error prismaMissingDataMessage
  | none, _ => .error prismaRecordNotFoundMessage

/-- Repository call `prisma.user.delete({ where: { id } })`: fails when no
user with the id exists. -/
def userDelete (store : Store) (id : String) : Except String Unit :=
  match userFindFirst store id with
  | some _ => .ok ()
  | none => .error prismaRecordNotFoundMessage

/-- Repository call `prisma.post.delete({ where: { id } })`. -/
def postDelete (store : Store) (id : String) : Except String Unit :=
  match postFindFirst store id with
  | some _ => .ok ()
  | none => .error prismaRecordNotFoundMessage

/-- Repository call `prisma.profile.delete({ where: { id } })`. -/
def profileDelete (store : Store) (id : String) : Except String Unit :=
  match profileFindFirst store id with
  | some _ => .ok ()
  | none => .error prismaRecordNotFoundMessage

/-- Repository call `prisma.subscribersOnAuthors.create`: fails on a
duplicate of the composite key. -/
def subscriptionCreate (store : Store) (subscriberId authorId : String) :
    Except String Unit :=
  match store.subscribersOnAuthors.find?
      (fun e => e.subscriberId == subscriberId && e.authorId == authorId) with
  | some _ => .error "Unique constraint failed"
  | none => .ok ()

/-- Repository call `prisma.subscribersOnAuthors.delete` on the composite
key: fails when the edge does not exist. -/
def subscriptionDelete (store : Store) (subscriberId authorId : String) :
    Except String Unit :=
  match store.subscribersOnAuthors.find?
      (fun e => e.subscriberId == subscriberId && e.authorId == authorId) with
  | some _ => .ok ()
  | none => .error prismaRecordNotFoundMessage

/-- Read a string argument (ids are UUID strings). -/
def strArg (args : List (String × GValue)) (key : String) : String :=
  match args.lookup key with
  | some (.s v) => v
  | _ => ""

/-- Object type `Mutations`: create/change/delete per mutable entity plus
the two subscription-toggling fields. Note that the `createProfile` dto
argument is declared without a non-null wrapper, unlike the other create
mutations. Every catch block wraps the underlying error message into the
surfaced message. -/
def MutationsObj : ObjDef :=
  { name := "Mutations"
    fields :=
      [ { name := "createUser", ty := .nonNull (.object "User")
        , args := [("dto", .nonNull (.inputObject "CreateUserInput"))]
        , resolve := some (fun _ args _ =>
            match userCreate (args.lookup "dto") with
            | .ok v => .ok v
            | .error m => .error (createUserErrorMessage m)) }
      , { name := "createProfile", ty := .nonNull (.object "Profile")
        , args := [("dto", .inputObject "CreateProfileInput")]
        , resolve := some (fun _ args _ =>
            match profileCreate (args.lookup "dto") with
            | .ok v => .ok v
            | .error m => .error (createProfileErrorMessage m)) }
      , { name := "createPost", ty := .nonNull (.object "Post")
        , args := [("dto", .nonNull (.inputObject "CreatePostInput"))]
        , resolve := some (fun _ args _ =>
            match postCreate (args.lookup "dto") with
            | .ok v => .ok v
            | .error m => .error (createPostErrorMessage m)) }
      , { name := "changePost", ty := .nonNull (.object "Post")
        , args := [("id", .nonNull (.scalar "UUID")), ("dto", .nonNull (.inputObject "ChangePostInput"))]
        , resolve := some (fun _ args store =>
            match postUpdate store (strArg args "id") (args.lookup "dto") with
            | .ok v => .ok v
            | .error m => .error (changePostErrorMessage m)) }
      , { name := "changeProfile", ty := .nonNull (.object "Profile")
        , args := [("id", .nonNull (.scalar "UUID")), ("dto", .nonNull (.inputObject "ChangeProfileInput"))]
        , resolve := some (fun _ args store =>
            match profileUpdate store (strArg args "id") (args.lookup "dto") with
            | .ok v => .ok v
            | .error m => .error (changeProfileErrorMessage m)) }
      , { name := "changeUser", ty := .nonNull (.object "User")
        , args := [("id", .nonNull (.scalar "UUID")), ("dto", .nonNull (.inputObject "ChangeUserInput"))]
        , resolve := some (fun _ args store =>
            match userUpdate store (strArg args "id") (args.lookup "dto") with
            | .ok v => .ok v
            | .error m => .error (changeUserErrorMessage m)) }
      , { name := "deleteUser", ty := .nonNull (.scalar "String")
        , args := [("id", .nonNull (.scalar "UUID"))]
        , resolve := some (fun _ args store =>
            match userDelete store (strArg args "id") with
            | .ok _ => .ok (.s "User deleted")
            | .error m => .error (deleteUserErrorMessage m)) }
      , { name := "deletePost", ty := .nonNull (.scalar "String")
        , args := [("id", .nonNull (.scalar "UUID"))]
        , resolve := some (fun _ args store =>
            match postDelete store (strArg args "id") with
            | .ok _ => .ok (.s "Post deleted")
            | .error m => .error (deletePostErrorMessage m)) }
      , { name := "deleteProfile", ty := .nonNull (.scalar "String")
        , args := [("id", .nonNull (.scalar "UUID"))]
        , resolve := some (fun _ args store =>
            match profileDelete store (strArg args "id") with
            | .ok _ => .ok (.s "Profile deleted")
            | .error m => .error (deleteProfileErrorMessage m)) }
      , { name := "subscribeTo", ty := .nonNull (.scalar "String")
        , args := [("userId", .nonNull (.scalar "UUID")), ("authorId", .nonNull (.scalar "UUID"))]
        , resolve := some (fun _ args store =>
            match subscriptionCreate store (strArg args "userId") (strArg args "authorId") with
            | .ok _ => .ok (.s "Subscribed")
            | .error m => .error (subscribeToErrorMessage m)) }
      , { name := "unsubscribeFrom", ty := .nonNull (.scalar "String")
        , args := [("userId", .nonNull (.scalar "UUID")), ("authorId", .nonNull (.scalar "UUID"))]
        , resolve := some (fun _ args store =>
            match subscriptionDelete store (strArg args "userId") (strArg args "authorId") with
            | .ok _ => .ok (.s "Unsubscribed")
            | .error m => .error (unsubscribeFromErrorMessage m)) } ] }

/-- Type registry of the schema: object types looked up by name. -/
def schemaTypes : String → Option ObjDef
  | "MemberType" => some MemberTypeObj
  | "Post" => some PostObj
  | "Profile" => some ProfileObj
  | "User" => some UserObj
  | "RootQueryType" => some RootQueryTypeObj
  | "Mutations" => some MutationsObj
  | _ => none

/-- Outcome of resolving one field: `val = none` signals a null that must
propagate if the position is non-null; `errs` are the field errors
collected, `log` the names of resolvers invoked, in invocation order. -/
structure FOut where
  val : Option GValue
  errs : List FieldError
  log : List String
deriving Repr

/-- Outcome of executing a selection set: `kvs = none` signals that a
non-null child failed and the enclosing object must become null. -/
structure SOut where
  kvs : Option (List (String × GValue))
  errs : List FieldError
  log : List String
deriving Repr

/-- Combine completed list elements, preserving order: a failed element is
null at its own position when the element type is nullable, and nulls the
whole list when the element type is non-null; errors and logs of all
elements are kept either way. -/
def combineElems (strictElem : Bool) (outs : List FOut) : FOut :=
  let step := fun (acc : Option (List GValue) × List FieldError × List String) (o : FOut) =>
    match o.val with
    | some v => (acc.1.map (fun l => l ++ [v]), acc.2.1 ++ o.errs, acc.2.2 ++ o.log)
    | none =>
        (if strictElem then none else acc.1.map (fun l => l ++ [GValue.null]),
         acc.2.1 ++ o.errs, acc.2.2 ++ o.log)
  let folded := outs.foldl step (some [], [], [])
  { val := folded.1.map .list, errs := folded.2.1, log := folded.2.2 }

mutual
/-- Modelled from the spec: execute one field (execution engine of the
external graphql library, section 4.4 of the specification). Invoke the
bound resolver; a thrown error becomes a single field error at the current
path and a null signal; a returned value is completed against the field's
declared type. -/
def execField (store : Store) (fuel : Nat) (parent : GValue) (fd : FieldDef)
    (s : Selection) (path : List PathSeg) : FOut :=
  match fuel with
  | 0 => { val := none, errs := [⟨"fuel exhausted", path⟩], log := [] }
  | fuel + 1 =>
      match runResolver fd parent s.args store with
      | .error m => { val := none, errs := [⟨m, path⟩], log := [s.name] }
      | .ok v =>
          let c := completeV store fuel fd.ty s.sub v path
          { val := c.val, errs := c.errs, log := s.name :: c.log }
termination_by (fuel, 0)

/-- Modelled from the spec: complete a resolved value against its declared
type. A null at a non-null position becomes a single field error plus a
null-propagation signal; lists complete each element at its index,
preserving order; object values recurse into the subselection. -/
def completeV (store : Store) (fuel : Nat) (ty : GType) (sels : List Selection)
    (v : GValue) (path : List PathSeg) : FOut :=
  match fuel with
  | 0 => { val := none, errs := [⟨"fuel exhausted", path⟩], log := [] }
  | fuel + 1 =>
      match ty with
      | .nonNull t =>
          match v with
          | .null => { val := none
                     , errs := [⟨"Cannot return null for non-nullable field", path⟩]
                     , log := [] }
          | _ => completeV store fuel t sels v path
      | .listOf t =>
          match v with
          | .null => { val := some .null, errs := [], log := [] }
          | .list items =>
              combineElems (isNonNull t)
                (items.enum.map (fun p => completeV store fuel t sels p.2 (path ++ [.idx p.1])))
          | _ => { val := none, errs := [⟨"Expected a list", path⟩], log := [] }
      | .object n =>
          match v with
          | .null => { val := some .null, errs := [], log := [] }
          | _ =>
              match schemaTypes n with
              | some od =>
                  let r := execSet store fuel od v sels path
                  { val := r.kvs.map .obj, errs := r.errs, log := r.log }
              | none => { val := none, errs := [⟨"Unknown type " ++ n, path⟩], log := [] }
      | .scalar _ => { val := some v, errs := [], log := [] }
      | .enum _ => { val := some v, errs := [], log := [] }
      | .inputObject _ => { val := some v, errs := [], log := [] }
termination_by (fuel, 0)

/-- Modelled from the spec: execute a selection set over a parent value, in
document order. A null signal from a non-null field nulls the whole set
(discarding sibling values while keeping their errors); a null signal from
a nullable field records null at that key and execution continues. -/
def execSet (store : Store) (fuel : Nat) (od : ObjDef) (parent : GValue)
    (sels : List Selection) (path : List PathSeg) : SOut :=
  match fuel with
  | 0 => { kvs := none, errs := [⟨"fuel exhausted", path⟩], log := [] }
  | fuel + 1 =>
      match sels with
      | [] => { kvs := some [], errs := [], log := [] }
      | s :: rest =>
          match od.fields.find? (fun fd => fd.name == s.name) with
          | none => execSet store (fuel + 1) od parent rest path
          | some fd =>
              let f := execField store fuel parent fd s (path ++ [.fld s.name])
              match f.val with
              | some v =>
                  let r := execSet store (fuel + 1) od parent rest path
                  { kvs := r.kvs.map (fun l => (s.name, v) :: l)
                  , errs := f.errs ++ r.errs, log := f.log ++ r.log }
              | none =>
                  if isNonNull fd.ty then
                    { kvs := none, errs := f.errs, log := f.log }
                  else
                    let r := execSet store (fuel + 1) od parent rest path
                    { kvs := r.kvs.map (fun l => (s.name, GValue.null) :: l)
                    , errs := f.errs ++ r.errs, log := f.log ++ r.log }
termination_by (fuel, sels.length + 1)
end

/-- Fuel bound sufficient for a document: descending one selection level
consumes at most a handful of fuel units, and fuel is never consumed per
store row. -/
def queryFuel (sels : List Selection) : Nat :=
  6 * selsSize sels + 6

/-- Modelled from the spec: execute a validated document against the root
type for its operation kind, assembling the data tree and the ordered error
list. A null propagated to the root makes the whole data payload null. -/
def executeRequest (store : Store) (doc : Doc) : Response × List String :=
  let od := match doc.op with
    | .query => RootQueryTypeObj
    | .mutation => MutationsObj
  let r := execSet store (queryFuel doc.sels) od (.obj []) doc.sels []
  ({ data := some ((r.kvs.map GValue.obj).getD .null), errors := r.errs }, r.log)

/-- The fixed depth bound configured in the handler source (`const limit = 5`). -/
def limit : Nat := 5

/-- Modelled from the spec: the depth-limit validation rule of the external
graphql-depth-limit package. Computes the maximum nesting depth of the
selection tree and fails the whole operation with a single aggregated
ValidationError when it exceeds the bound (section 4.3 of the
specification). -/
def depthLimitErrors (bound : Nat) (doc : Doc) : List FieldError :=
  if selsDepth doc.sels > bound then
    [⟨"exceeds maximum operation depth of " ++ toString bound, []⟩]
  else []

/-- Modelled from the spec: structural validation of the external graphql
library (selected fields exist on their parent type, required non-null
arguments are present, object fields carry a non-empty subselection, leaf
fields carry none). Runs with fuel bounded by the document size. -/
def validateSels (fuel : Nat) (tyName : String) (sels : List Selection) :
    List FieldError :=
  match fuel with
  | 0 => [⟨"validation fuel exhausted", []⟩]
  | fuel + 1 =>
      match sels with
      | [] => []
      | .field nm args sub :: rest =>
          (match (schemaTypes tyName).bind
              (fun od => od.fields.find? (fun fd => fd.name == nm)) with
           | none => [⟨"Cannot query field " ++ nm ++ " on type " ++ tyName, []⟩]
           | some fd =>
              (if fd.args.all (fun a => !isNonNull a.2 || (args.lookup a.1).isSome)
               then [] else [⟨"Missing required argument on field " ++ nm, []⟩]) ++
              (match stripWrappers fd.ty with
               | .object n =>
                   if sub.isEmpty then
                     [⟨"Field " ++ nm ++ " must have a selection of subfields", []⟩]
                   else validateSels fuel n sub
               | _ =>
                   if sub.isEmpty then []
                   else [⟨"Field " ++ nm ++ " must not have a selection", []⟩]))
          ++ validateSels (fuel + 1) tyName rest
termination_by (fuel, sels.length + 1)

/-- Modelled from the spec: the full structural validation pass run by the
graphql entry point against the appropriate root type. -/
def structuralValidate (doc : Doc) : List FieldError :=
  let root := match doc.op with
    | .query => "RootQueryType"
    | .mutation => "Mutations"
  validateSels (selsSize doc.sels + 1) root doc.sels

/-- The `graphql({ schema, source, variableValues })` entry point called by
both handler variants: structural validation first (no data and no resolver
invocation on failure), then execution. The second component is the log of
resolver invocations. -/
def graphqlRun (store : Store) (req : Request) : Response × List String :=
  let verrs := structuralValidate req.query
  if verrs = [] then executeRequest store req.query
  else ({ data := none, errors := verrs }, [])

/-- Handler of the depth-validating variant: runs
`validate(schema, parse(query), [depthLimit(limit)])` first and returns
only the error list when it is non-empty, otherwise delegates to graphql. -/
def handlerDepth (store : Store) (req : Request) : Response × List String :=
  let errors := depthLimitErrors limit req.query
  if errors = [] then graphqlRun store req
  else ({ data := none, errors := errors }, [])

/-- Handler of the direct variant (src/routes/graphql/index.ts): calls the
graphql entry point with no extra validation pass. -/
def handlerDirect (store : Store) (req : Request) : Response × List String :=
  graphqlRun store req

/-- Observable event of mutation-root scheduling: a root resolver starting,
a nested resolver call, or a root field (resolver plus subtree) finishing. -/
inductive MEvent where
  | start (name : String)
  | call (name : String)
  | done (name : String)
deriving Repr, DecidableEq

/-- Execute one mutation-root field through the engine. -/
def execMutationField (store : Store) (s : Selection) : FOut :=
  match MutationsObj.fields.find? (fun fd => fd.name == s.name) with
  | some fd => execField store (queryFuel [s]) (.obj []) fd s [.fld s.name]
  | none => { val := some .null, errs := [], log := [] }

/-- Events emitted while one mutation-root field executes: its start, the
nested resolver calls of its whole subtree, then its completion. -/
def mutationFieldEvents (store : Store) (s : Selection) : List MEvent :=
  [.start s.name] ++ (execMutationField store s).log.map .call ++ [.done s.name]

/-- Modelled from the spec: mutation-root fields run strictly sequentially
in document order; each root field, including its entire subtree, settles
before the next one starts (sections 4.4 and 5 of the specification). The
schedule is the concatenation of the per-field event blocks. -/
def execMutationsSerialLog (store : Store) (sels : List Selection) : List MEvent :=
  (sels.map (mutationFieldEvents store)).flatten

/-- Field names exposed by the query root, in declaration order. -/
def queryFieldNames : List String :=
  RootQueryTypeObj.fields.map FieldDef.name

/-- Field names exposed by the mutation root, in declaration order. -/
def mutationFieldNames : List String :=
  MutationsObj.fields.map FieldDef.name

/-- Declared type of an argument of a field of an object type. -/
def fieldArgTy (od : ObjDef) (f a : String) : Option GType :=
  (od.fields.find? (fun fd => fd.name == f)).bind (fun fd => fd.args.lookup a)

/-- Declared result type of a field of an object type. -/
def fieldTy (od : ObjDef) (f : String) : Option GType :=
  (od.fields.find? (fun fd => fd.name == f)).map FieldDef.ty

/-- Query document requesting a single entity by id with an id
subselection. -/
def qById (fieldName : String) (id : String) : Doc :=
  ⟨.query, [.field fieldName [("id", .s id)] [.field "id" [] []]]⟩

/-- Query document `{ user(id) { id name profile { id memberType { id } } } }`
exercising the non-null propagation scenario. -/
def qUserProfileMember (uid : String) : Doc :=
  ⟨.query,
    [.field "user" [("id", .s uid)]
      [ .field "id" [] []
      , .field "name" [] []
      , .field "profile" []
          [ .field "id" [] []
          , .field "memberType" [] [.field "id" [] []] ] ]]⟩

/-- Empty store fixture. -/
def storeEmpty : Store := ⟨[], [], [], [], []⟩

/-- Store fixture for the null-propagation scenario: one user with a
profile whose memberTypeId matches no member type. -/
def storeProp : Store :=
  ⟨[], [⟨"u1", "Alice", 0⟩], [], [⟨"p1", true, 1990, "MISSING", "u1"⟩], []⟩

/-- Store fixture for the subscription scenario: user u1 subscribed to an
existing author a1 and to a dangling authorId. -/
def storeSubs : Store :=
  ⟨[], [⟨"u1", "Alice", 0⟩, ⟨"a1", "Bob", 0⟩], [], [],
   [⟨"u1", "a1"⟩, ⟨"u1", "ghost"⟩]⟩

/-- Request fixture of depth 2, passing the depth rule. -/
def reqShallow : Request :=
  ⟨⟨.query, [.field "users" [] [.field "id" [] []]]⟩, []⟩

/-- Request fixture of depth 6, a single chain one level beyond the bound. -/
def reqDeep : Request :=
  ⟨⟨.query, [.field "a" [] [.field "b" [] [.field "c" []
      [.field "d" [] [.field "e" [] [.field "f" [] []]]]]]]⟩, []⟩

/-- Request fixture selecting a field unknown to the schema, failing
structural validation at depth 1. -/
def reqBogus : Request :=
  ⟨⟨.query, [.field "bogus" [] []]⟩, []⟩

/-- C1: queries whose selection depth is at most the configured bound 5
pass depth validation and execution proceeds; queries of depth 6 get a
response with exactly one ValidationError and no data; the bound is the
fixed integer 5 and the validation outcome depends only on the query
document, never on anything else in the request. -/
theorem depth_rule_fixed_bound (store : Store) (req : Request) :
    (selsDepth req.query.sels ≤ 5 →
      depthLimitErrors limit req.query = [] ∧
      handlerDepth store req = graphqlRun store req) ∧
    (selsDepth req.query.sels = 6 →
      (handlerDepth store req).1.data = none ∧
      (handlerDepth store req).1.errors.length = 1 ∧
      (handlerDepth store req).2 = []) ∧
    limit = 5 ∧
    (∀ req' : Request, req'.query = req.query →
      depthLimitErrors limit req'.query = depthLimitErrors limit req.query) := by
  refine ⟨?_, ?_, rfl, ?_⟩
  · intro h
    have hgt : ¬ selsDepth req.query.sels > 5 := by omega
    constructor
    · simp [depthLimitErrors, limit, hgt]
    · simp [handlerDepth, depthLimitErrors, limit, hgt]
  · intro h
    simp [handlerDepth, depthLimitErrors, limit, h]
  · intro req' h
    rw [h]

/-- C1 witness: a depth-2 request passes and is executed; a depth-6 request
is rejected with exactly one error and no data. -/
theorem depth_rule_fixed_bound_witness :
    (depthLimitErrors limit reqShallow.query = [] ∧
      handlerDepth storeEmpty reqShallow = graphqlRun storeEmpty reqShallow) ∧
    ((handlerDepth storeEmpty reqDeep).1.data = none ∧
      (handlerDepth storeEmpty reqDeep).1.errors.length = 1 ∧
      (handlerDepth storeEmpty reqDeep).2 = []) := by
  constructor
  · exact (depth_rule_fixed_bound storeEmpty reqShallow).1
      (by simp [reqShallow, selsDepth, selDepth])
  · exact (depth_rule_fixed_bound storeEmpty reqDeep).2.1
      (by simp [reqDeep, selsDepth, selDepth])

/-- C10: whenever the depth-limit validation pass reports no errors, the
depth-validating handler variant returns exactly what the direct handler
variant returns for the same request, schema and store. -/
theorem depth_handler_refines_direct (store : Store) (req : Request)
    (h : depthLimitErrors limit req.query = []) :
    handlerDepth store req = handlerDirect store req := by
  simp [handlerDepth, handlerDirect, h]

/-- C10 witness: the two handler variants agree on a concrete depth-passing
request. -/
theorem depth_handler_refines_direct_witness :
    handlerDepth storeEmpty reqShallow = handlerDirect storeEmpty reqShallow :=
  depth_handler_refines_direct storeEmpty reqShallow
    (by simp [depthLimitErrors, limit, reqShallow, selsDepth, selDepth])

/-- C3: when the depth rule or the structural validation pass reports at
least one error, the handler returns only that error list, carries no data
value, and invokes no resolver (the invocation log is empty). -/
theorem validation_short_circuit (store : Store) (req : Request)
    (h : depthLimitErrors limit req.query ≠ [] ∨ structuralValidate req.query ≠ []) :
    (handlerDepth store req).2 = [] ∧
    (handlerDepth store req).1.data = none ∧
    ((handlerDepth store req).1.errors = depthLimitErrors limit req.query ∨
     (handlerDepth store req).1.errors = structuralValidate req.query) := by
  by_cases hd : depthLimitErrors limit req.query = []
  · have hs : structuralValidate req.query ≠ [] := by
      rcases h with h | h
      · exact absurd hd h
      · exact h
    refine ⟨?_, ?_, Or.inr ?_⟩ <;>
      simp [handlerDepth, hd, graphqlRun, hs]
  · refine ⟨?_, ?_, Or.inl ?_⟩ <;> simp [handlerDepth, hd]

/-- C3 witness: a structurally invalid request (unknown root field) yields
an empty invocation log, no data, and exactly the validation error list. -/
theorem validation_short_circuit_witness :
    (handlerDepth storeEmpty reqBogus).2 = [] ∧
    (handlerDepth storeEmpty reqBogus).1.data = none ∧
    ((handlerDepth storeEmpty reqBogus).1.errors = depthLimitErrors limit reqBogus.query ∨
     (handlerDepth storeEmpty reqBogus).1.errors = structuralValidate reqBogus.query) :=
  validation_short_circuit storeEmpty reqBogus
    (Or.inr (by simp [structuralValidate, validateSels, reqBogus, selsSize, selSize,
      schemaTypes, RootQueryTypeObj, List.find?]))

/-- C4: a query requesting a single entity by id through one of the four
nullable root fields, where the repository lookup finds nothing, yields a
null data field and an empty error list. -/
theorem absent_single_entity_null (store : Store) (uid pid prid mid : String) :
    (userFindFirst store uid = none →
      (graphqlRun store ⟨qById "user" uid, []⟩).1.data = some (.obj [("user", .null)]) ∧
      (graphqlRun store ⟨qById "user" uid, []⟩).1.errors = []) ∧
    (postFindFirst store pid = none →
      (graphqlRun store ⟨qById "post" pid, []⟩).1.data = some (.obj [("post", .null)]) ∧
      (graphqlRun store ⟨qById "post" pid, []⟩).1.errors = []) ∧
    (profileFindFirst store prid = none →
      (graphqlRun store ⟨qById "profile" prid, []⟩).1.data = some (.obj [("profile", .null)]) ∧
      (graphqlRun store ⟨qById "profile" prid, []⟩).1.errors = []) ∧
    (memberTypeFindFirst store mid = none →
      (graphqlRun store ⟨qById "memberType" mid, []⟩).1.data = some (.obj [("memberType", .null)]) ∧
      (graphqlRun store ⟨qById "memberType" mid, []⟩).1.errors = []) := by
  refine ⟨fun h => ?_, fun h => ?_, fun h => ?_, fun h => ?_⟩ <;>
    simp [graphqlRun, structuralValidate, validateSels, qById, selsSize, selSize,
      schemaTypes, RootQueryTypeObj, List.find?, stripWrappers, isNonNull,
      executeRequest, execSet, execField, completeV, queryFuel, runResolver,
      Selection.name, Selection.args, Selection.sub, List.lookup, h]

/-- C4 witness: against the empty store, each of the four by-id root
queries yields a null field and no errors. -/
theorem absent_single_entity_null_witness :
    ((graphqlRun storeEmpty ⟨qById "user" "nope", []⟩).1.data
        = some (.obj [("user", .null)]) ∧
      (graphqlRun storeEmpty ⟨qById "user" "nope", []⟩).1.errors = []) ∧
    ((graphqlRun storeEmpty ⟨qById "memberType" "nope", []⟩).1.data
        = some (.obj [("memberType", .null)]) ∧
      (graphqlRun storeEmpty ⟨qById "memberType" "nope", []⟩).1.errors = []) := by
  constructor
  · exact (absent_single_entity_null storeEmpty "nope" "x" "x" "x").1
      (by simp [userFindFirst, storeEmpty])
  · exact (absent_single_entity_null storeEmpty "x" "x" "x" "nope").2.2.2
      (by simp [memberTypeFindFirst, storeEmpty])

/-- C2: when the non-null field Profile.memberType resolves to an absent
value, the nearest enclosing nullable ancestor User.profile becomes null in
the result tree, the sibling fields outside that subtree (user.id,
user.name) keep their resolved values, and exactly one error whose path
names the failing field is reported. -/
theorem nonnull_absent_propagates_to_nullable_ancestor (store : Store)
    (uid : String) (u : UserRec) (prof : ProfileRec)
    (h1 : userFindFirst store uid = some u)
    (h2 : profileFindByUser store u.id = some prof)
    (h3 : memberTypeFindFirst store prof.memberTypeId = none) :
    (graphqlRun store ⟨qUserProfileMember uid, []⟩).1.data =
      some (.obj [("user", .obj
        [("id", .s u.id), ("name", .s u.name), ("profile", .null)])]) ∧
    (graphqlRun store ⟨qUserProfileMember uid, []⟩).1.errors =
      [⟨"Cannot return null for non-nullable field",
        [.fld "user", .fld "profile", .fld "memberType"]⟩] := by
  constructor <;>
    simp [graphqlRun, structuralValidate, validateSels, qUserProfileMember,
      selsSize, selSize, schemaTypes, RootQueryTypeObj, UserObj, ProfileObj,
      List.find?, stripWrappers, isNonNull, executeRequest, execSet, execField,
      completeV, queryFuel, runResolver, defaultResolve, getProp, getStrD,
      userToG, profileToG, Selection.name, Selection.args, Selection.sub,
      List.lookup, h1, h2, h3]

/-- C2 witness: in a store where Alice's profile references a missing
member type, the query returns her id and name, a null profile, and the
single error at user.profile.memberType. -/
theorem nonnull_absent_propagates_witness :
    (graphqlRun storeProp ⟨qUserProfileMember "u1", []⟩).1.data =
      some (.obj [("user", .obj
        [("id", .s "u1"), ("name", .s "Alice"), ("profile", .null)])]) ∧
    (graphqlRun storeProp ⟨qUserProfileMember "u1", []⟩).1.errors =
      [⟨"Cannot return null for non-nullable field",
        [.fld "user", .fld "profile", .fld "memberType"]⟩] :=
  nonnull_absent_propagates_to_nullable_ancestor storeProp "u1"
    ⟨"u1", "Alice", 0⟩ ⟨"p1", true, 1990, "MISSING", "u1"⟩
    (by simp [userFindFirst, storeProp])
    (by simp [profileFindByUser, storeProp])
    (by simp [memberTypeFindFirst, storeProp])

/-- Last element of a list extended by one element on the right. -/
theorem getLast_append_singleton {α : Type} (l : List α) (a : α) :
    (l ++ [a]).getLast? = some a :=
  List.getLast?_concat l

/-- C5: for a mutation document selecting root fields in order [A, B], the
observable schedule is A's full event block followed by B's: everything of
A — its resolver and its entire subtree — ends (with A's completion event)
before B's start event, so mutation-root fields never run concurrently. -/
theorem mutation_roots_run_serially (store : Store) (A B : Selection) :
    execMutationsSerialLog store [A, B] =
      mutationFieldEvents store A ++ mutationFieldEvents store B ∧
    (mutationFieldEvents store A).getLast? = some (.done A.name) ∧
    (mutationFieldEvents store B).head? = some (.start B.name) := by
  refine ⟨by simp [execMutationsSerialLog], ?_, by simp [mutationFieldEvents]⟩
  show ([MEvent.start A.name] ++ (execMutationField store A).log.map MEvent.call
      ++ [MEvent.done A.name]).getLast? = some (.done A.name)
  exact getLast_append_singleton _ _

/-- C6 counterexample: the surfaced mutation error message is not generic —
it embeds the underlying internal error's message text verbatim, and two
different internal errors surface as two different messages (shown for the
createUser and deleteUser catch blocks the claim cites). -/
theorem internal_error_message_not_generic :
    createUserErrorMessage "connection refused by database host" =
      "Failed to create user: connection refused by database host" ∧
    createUserErrorMessage "a" ≠ createUserErrorMessage "b" ∧
    deleteUserErrorMessage "timeout after 30s" =
      "Failed to delete user: timeout after 30s" ∧
    deleteUserErrorMessage "a" ≠ deleteUserErrorMessage "b" := by
  refine ⟨rfl, ?_, rfl, ?_⟩ <;> simp [createUserErrorMessage, deleteUserErrorMessage]

/-- C6 amended: a resolver failing with an internal error still produces a
single field-level error and a well-formed response (execution never
crashes; the non-null root field propagates to a null data payload), but
the surfaced message is the operation prefix concatenated with the
underlying error's message — the internal text is included, not hidden. -/
theorem internal_error_still_field_error (store : Store) (dtoV : GValue)
    (uid m deleteMsg : String)
    (hc : userCreate (some dtoV) = .error m)
    (hd : userDelete store uid = .error deleteMsg) :
    ((graphqlRun store
        ⟨⟨.mutation, [.field "createUser" [("dto", dtoV)] [.field "id" [] []]]⟩, []⟩).1.data
      = some .null ∧
     (graphqlRun store
        ⟨⟨.mutation, [.field "createUser" [("dto", dtoV)] [.field "id" [] []]]⟩, []⟩).1.errors
      = [⟨createUserErrorMessage m, [.fld "createUser"]⟩]) ∧
    ((graphqlRun store
        ⟨⟨.mutation, [.field "deleteUser" [("id", .s uid)] []]⟩, []⟩).1.data
      = some .null ∧
     (graphqlRun store
        ⟨⟨.mutation, [.field "deleteUser" [("id", .s uid)] []]⟩, []⟩).1.errors
      = [⟨deleteUserErrorMessage deleteMsg, [.fld "deleteUser"]⟩]) := by
  refine ⟨⟨?_, ?_⟩, ⟨?_, ?_⟩⟩ <;>
    simp [graphqlRun, structuralValidate, validateSels, selsSize, selSize,
      schemaTypes, MutationsObj, List.find?, stripWrappers, isNonNull,
      executeRequest, execSet, execField, completeV, queryFuel, runResolver,
      strArg, Selection.name, Selection.args, Selection.sub, List.lookup, hc, hd]

/-- C6 amended witness: createUser invoked with a null dto and deleteUser
on a missing id both surface a wrapped repository message as the sole field
error while the response stays well-formed with a null data payload. -/
theorem internal_error_still_field_error_witness :
    (graphqlRun storeEmpty
        ⟨⟨.mutation, [.field "createUser" [("dto", .null)] [.field "id" [] []]]⟩, []⟩).1.errors
      = [⟨createUserErrorMessage prismaMissingDataMessage, [.fld "createUser"]⟩] ∧
    (graphqlRun storeEmpty
        ⟨⟨.mutation, [.field "deleteUser" [("id", .s "ghost")] []]⟩, []⟩).1.errors
      = [⟨deleteUserErrorMessage prismaRecordNotFoundMessage, [.fld "deleteUser"]⟩] := by
  have h := internal_error_still_field_error storeEmpty .null "ghost"
    prismaMissingDataMessage prismaRecordNotFoundMessage
    (by simp [userCreate]) (by simp [userDelete, userFindFirst, storeEmpty])
  exact ⟨h.1.2, h.2.2⟩

/-- C7 counterexample: the mutation root exposes no create, update or
delete operation for the memberType entity kind, so it does not cover every
declared entity kind. -/
theorem mutation_crud_missing_for_memberType :
    "createMemberType" ∉ mutationFieldNames ∧
    "changeMemberType" ∉ mutationFieldNames ∧
    "deleteMemberType" ∉ mutationFieldNames := by
  refine ⟨?_, ?_, ?_⟩ <;> simp [mutationFieldNames, MutationsObj]

/-- C7 amended: the query root exposes a collection field and a
single-entity-by-id field for each of the four entity kinds; the mutation
root exposes create, update (named change) and delete operations for the
user, post and profile kinds — not for memberType — plus exactly the two
relation-toggling fields subscribeTo and unsubscribeFrom, each taking the
two non-null user ids of the directed user-to-user relation. -/
theorem schema_surface_amended :
    queryFieldNames =
      ["memberTypes", "memberType", "users", "user", "posts", "post",
       "profiles", "profile"] ∧
    mutationFieldNames =
      ["createUser", "createProfile", "createPost", "changePost",
       "changeProfile", "changeUser", "deleteUser", "deletePost",
       "deleteProfile", "subscribeTo", "unsubscribeFrom"] ∧
    fieldArgTy MutationsObj "subscribeTo" "userId" = some (.nonNull (.scalar "UUID")) ∧
    fieldArgTy MutationsObj "subscribeTo" "authorId" = some (.nonNull (.scalar "UUID")) ∧
    fieldArgTy MutationsObj "unsubscribeFrom" "userId" = some (.nonNull (.scalar "UUID")) ∧
    fieldArgTy MutationsObj "unsubscribeFrom" "authorId" = some (.nonNull (.scalar "UUID")) := by
  refine ⟨?_, ?_, ?_, ?_, ?_, ?_⟩ <;>
    simp [queryFieldNames, mutationFieldNames, fieldArgTy, RootQueryTypeObj,
      MutationsObj, List.find?, List.lookup]

/-- C8: each subscription resolver returns exactly one element per matching
join-table edge, in edge order, where element i is the user looked up by
edge i's counterpart id and is null when that user does not exist — while
the declared element type of both fields is non-null User. -/
theorem subscription_resolver_lists (store : Store) (u : UserRec) :
    userSubscribedToResolve (userToG u) [] store =
      .ok (.list (userSubscribedToList store u.id)) ∧
    subscribedToUserResolve (userToG u) [] store =
      .ok (.list (subscribedToUserList store u.id)) ∧
    (userSubscribedToList store u.id).length = (subsBySubscriber store u.id).length ∧
    (subscribedToUserList store u.id).length = (subsByAuthor store u.id).length ∧
    (∀ i (h1 : i < (userSubscribedToList store u.id).length)
        (h2 : i < (subsBySubscriber store u.id).length),
      (userSubscribedToList store u.id).get ⟨i, h1⟩ =
        ((userFindFirst store ((subsBySubscriber store u.id).get ⟨i, h2⟩).authorId).map
          userToG).getD .null) ∧
    (∀ i (h1 : i < (subscribedToUserList store u.id).length)
        (h2 : i < (subsByAuthor store u.id).length),
      (subscribedToUserList store u.id).get ⟨i, h1⟩ =
        ((userFindFirst store ((subsByAuthor store u.id).get ⟨i, h2⟩).subscriberId).map
          userToG).getD .null) ∧
    fieldTy UserObj "userSubscribedTo" =
      some (.nonNull (.listOf (.nonNull (.object "User")))) ∧
    fieldTy UserObj "subscribedToUser" =
      some (.nonNull (.listOf (.nonNull (.object "User")))) := by
  refine ⟨?_, ?_, ?_, ?_, ?_, ?_, ?_, ?_⟩
  · simp [userSubscribedToResolve, getStrD, getProp, userToG, List.lookup]
  · simp [subscribedToUserResolve, getStrD, getProp, userToG, List.lookup]
  · simp [userSubscribedToList]
  · simp [subscribedToUserList]
  · intro i h1 h2
    simp [userSubscribedToList, List.getElem_map]
  · intro i h1 h2
    simp [subscribedToUserList, List.getElem_map]
  · simp [fieldTy, UserObj, List.find?]
  · simp [fieldTy, UserObj, List.find?]

/-- C8 witness: with one existing author edge and one dangling edge, the
resolver returns the author object then a null element, in edge order. -/
theorem subscription_resolver_lists_witness :
    userSubscribedToResolve (userToG ⟨"u1", "Alice", 0⟩) [] storeSubs =
      .ok (.list [userToG ⟨"a1", "Bob", 0⟩, .null]) ∧
    (userSubscribedToList storeSubs "u1").get? 1 = some .null := by
  have h := subscription_resolver_lists storeSubs ⟨"u1", "Alice", 0⟩
  have hb1 : (1 : Nat) < (userSubscribedToList storeSubs "u1").length := by
    simp [userSubscribedToList, subsBySubscriber, storeSubs]
  have hb2 : (1 : Nat) < (subsBySubscriber storeSubs "u1").length := by
    simp [subsBySubscriber, storeSubs]
  have hget := h.2.2.2.2.1 1 hb1 hb2
  constructor
  · rw [h.1]
    simp [userSubscribedToList, subsBySubscriber, userFindFirst, storeSubs]
  · rw [List.get?_eq_get hb1, hget]
    simp [subsBySubscriber, userFindFirst, storeSubs]

/-- C9: createProfile declares its dto argument without a non-null wrapper
while createUser and createPost declare theirs non-null; consequently a
createProfile selection omitting dto passes argument validation and invokes
the resolver, which fails only at the repository create call, whereas the
same omission on createUser already fails validation. -/
theorem createProfile_dto_nullable (store : Store) :
    fieldArgTy MutationsObj "createProfile" "dto" =
      some (.inputObject "CreateProfileInput") ∧
    fieldArgTy MutationsObj "createUser" "dto" =
      some (.nonNull (.inputObject "CreateUserInput")) ∧
    fieldArgTy MutationsObj "createPost" "dto" =
      some (.nonNull (.inputObject "CreatePostInput")) ∧
    structuralValidate ⟨.mutation, [.field "createProfile" [] [.field "id" [] []]]⟩ = [] ∧
    structuralValidate ⟨.mutation, [.field "createUser" [] [.field "id" [] []]]⟩ ≠ [] ∧
    profileCreate none = .error prismaMissingDataMessage ∧
    (graphqlRun store
        ⟨⟨.mutation, [.field "createProfile" [] [.field "id" [] []]]⟩, []⟩).2
      = ["createProfile"] ∧
    (graphqlRun store
        ⟨⟨.mutation, [.field "createProfile" [] [.field "id" [] []]]⟩, []⟩).1.errors
      = [⟨createProfileErrorMessage prismaMissingDataMessage, [.fld "createProfile"]⟩] ∧
    (graphqlRun store
        ⟨⟨.mutation, [.field "createProfile" [] [.field "id" [] []]]⟩, []⟩).1.data
      = some .null := by
  refine ⟨?_, ?_, ?_, ?_, ?_, ?_, ?_, ?_, ?_⟩ <;>
    simp [fieldArgTy, MutationsObj, List.find?, List.lookup, structuralValidate,
      validateSels, selsSize, selSize, schemaTypes, stripWrappers, isNonNull,
      graphqlRun, executeRequest, execSet, execField, completeV, queryFuel,
      runResolver, profileCreate, Selection.name, Selection.args, Selection.sub]
